import Mathlib

/-!
Verification of the satellite discovery/deployment orchestration in
`skypipe/cloud.py`.

The Python module drives a remote platform through a fixed sequence of
REST calls: look up the satellite application's environment, probe the
recorded endpoint, and — when lookup or probing fails — redeploy the
satellite (destroy, create, push, trigger a deployment, stream its logs,
then wait for the fresh instance to come online).

We embed the control flow shallowly.  Every interaction with the outside
world is an oracle field of `World`, consulted at a per-operation call
index threaded through `Counters`.  Each embedded function returns its
Python return value (`Res PyVal`), the list of remote operations it
performed in order (`List Op`), and the updated call indices.  Python
exceptions that the module's own control flow distinguishes
(`RESTAPIError`, `KeyError`, `KeyboardInterrupt`, `RuntimeError`, and
`socket.gaierror` from `gethostbyname`) are explicit `Exc` values; an
uncaught exception is the `Res.exc` outcome, and `cli.die` (which raises
`SystemExit` and terminates the process) is the `Res.die` outcome.

Purely cosmetic steps of the source — `cli.info`, the dotted-progress
threads of `wait_for`, and the `sys.stdout` swapping — have no effect on
control flow or data and are not modelled.
-/

namespace Skypipe

/-- The Python exception classes that the control flow of `cloud.py`
distinguishes.  `rest code` is `RESTAPIError` with HTTP status `code`;
`gaierror` is the resolution failure `socket.gethostbyname` can raise. -/
inductive Exc where
  | rest (code : Nat)
  | keyError
  | gaierror
  | keyboardInterrupt
  | runtimeError
  deriving DecidableEq, Repr

/-- The Python values the orchestration functions can return: an endpoint
string, the integer exit code of the log stream (line 175 returns `res`
verbatim), or `None`. -/
inductive PyVal where
  | str (s : String)
  | int (n : Int)
  | none
  deriving DecidableEq, Repr

/-- Outcome of running one of the embedded functions: a normal return,
an uncaught propagating exception, or process termination via `cli.die`. -/
inductive Res (α : Type) where
  | ok (a : α)
  | exc (e : Exc)
  | die (msg : String)
  deriving DecidableEq, Repr

/-- One remote operation, recorded in the order the code performs it.
`lookup` is the environment GET of `lookup_endpoint`; `probe` is
`client.check_skypipe_endpoint` with its timeout argument; the remaining
constructors are the redeploy steps of `launch_satellite`. -/
inductive Op where
  | lookup
  | probe (timeout : Nat)
  | destroy
  | create
  | pushList
  | push
  | trigger
  | streamLogs
  deriving DecidableEq, Repr

/-- Outcome of the environment GET in `lookup_endpoint`: either the
environment dictionary or a `RESTAPIError` with the given code. -/
inductive LookupOutcome where
  | ok (env : List (String × String))
  | err (code : Nat)
  deriving DecidableEq, Repr

/-- Outcome of `cli._stream_deploy_logs`: a normal exit code, a
`KeyboardInterrupt`, the `RuntimeError` the source works around, or some
other propagating exception. -/
inductive StreamOutcome where
  | exit (code : Int)
  | interrupt
  | runtimeError
  | exc (e : Exc)
  deriving DecidableEq, Repr

/-- Oracle for everything outside `cloud.py`.  Each field gives the
outcome of the n-th invocation of the corresponding remote operation
within one top-level call, so repeated invocations may behave
differently, as a real remote platform may. -/
structure World where
  /-- `cli.global_config.loaded` (line 105). -/
  configured : Bool
  /-- Outcome of the n-th environment GET (line 59). -/
  lookups : Nat → LookupOutcome
  /-- `socket.gethostbyname` (line 61); `none` models `socket.gaierror`. -/
  resolve : String → Option String
  /-- `client.check_skypipe_endpoint endpoint timeout` for the n-th probe
  (lines 110 and 196). -/
  probe : Nat → String → Nat → Bool
  /-- Outcome of the n-th application DELETE (line 121); `some code` is a
  `RESTAPIError`, which `destroy_satellite` absorbs either way. -/
  destroyOutcome : Nat → Option Nat
  /-- Outcome of the n-th application-creating POST (line 138); `some
  code` is a `RESTAPIError` with that code. -/
  createOutcome : Nat → Option Nat
  /-- Combined outcome of the n-th push-endpoint GET plus
  `_select_endpoint` (lines 152-153): the selected endpoint or a raised
  exception. -/
  pushEndpoints : Nat → Except Exc String
  /-- Outcome of the n-th `push_with_rsync` (line 155); `some e` raises. -/
  pushOutcome : Nat → Option Exc
  /-- Outcome of the n-th deployment-triggering POST (lines 161-163):
  the `(trace_id, deploy_id)` pair or a raised exception. -/
  triggerOutcome : Nat → Except Exc (String × String)
  /-- Outcome of the n-th `_stream_deploy_logs` (line 172). -/
  streamOutcome : Nat → StreamOutcome

/-- How many times each remote operation has been invoked so far; indexes
the `World` oracle fields. -/
structure Counters where
  lookups : Nat
  probes : Nat
  destroys : Nat
  creates : Nat
  pushLists : Nat
  pushes : Nat
  triggers : Nat
  streams : Nat
  deriving DecidableEq, Repr

/-- All-zero counters: the state at the start of a top-level call. -/
def Counters.init : Counters := ⟨0, 0, 0, 0, 0, 0, 0, 0⟩

/-- The default of the `timeout` parameter of `discover_satellite`
(line 94). -/
def discoverDefaultTimeout : Nat := 5

/-- The timeout literal passed to the post-deploy probe (line 196). -/
def launchProbeTimeout : Nat := 120

/-- Environment key read for the port (line 60). -/
def envPortKey : String := "DOTCLOUD_SATELLITE_ZMQ_PORT"

/-- Environment key read for the host (line 61). -/
def envHostKey : String := "DOTCLOUD_SATELLITE_ZMQ_HOST"

/-- Message of `cli.die` at line 106 (paraphrased). -/
def dieNotConfigured : String := "Please setup skypipe by running skypipe --setup"

/-- Message of `cli.die` at line 144 for HTTP 409 (paraphrased). -/
def dieAlreadyExists : String := "Application skypipe0 already exists."

/-- Message of `cli.die` at line 146 for other creation errors
(paraphrased). -/
def dieCreateFailed : String := "Creating application skypipe0 failed"

/-- The bare `cli.die()` at line 186 after a `KeyboardInterrupt`; the
trace id is only printed via `cli.error`, so we record a fixed message. -/
def dieInterrupt : String := "log stream closed; deployment still running"

/-- Message of `cli.die` at line 204. -/
def dieOnlineTimeout : String := "Satellite failed to come online"

/-- The value computed (or exception raised) by `lookup_endpoint` when
the environment GET is the i-th one: read the environment, index the
port key then the host key (a missing key raises `KeyError`), resolve
the host (failure raises `socket.gaierror`), and format the endpoint
(lines 56-62). -/
def lookupRes (w : World) (i : Nat) : Except Exc String :=
  match w.lookups i with
  | .err code => .error (.rest code)
  | .ok env =>
    match env.lookup envPortKey with
    | Option.none => .error .keyError
    | some port =>
      match env.lookup envHostKey with
      | Option.none => .error .keyError
      | some hostname =>
        match w.resolve hostname with
        | Option.none => .error .gaierror
        | some host => .ok ("tcp://" ++ host ++ ":" ++ port)

/-- Embedding of `lookup_endpoint` (lines 56-62): performs one
environment GET and either returns the formatted endpoint or raises. -/
def lookup_endpoint (w : World) (c : Counters) :
    Except Exc String × List Op × Counters :=
  (lookupRes w c.lookups, [Op.lookup], { c with lookups := c.lookups + 1 })

/-- Embedding of `destroy_satellite` (lines 118-123): one application
DELETE whose `RESTAPIError` is absorbed by the bare `except`, so the
oracle outcome never influences the result. -/
def destroy_satellite (w : World) (c : Counters) : List Op × Counters :=
  let _ := w.destroyOutcome c.destroys
  ([Op.destroy], { c with destroys := c.destroys + 1 })

/-- Embedding of lines 193-204 of `launch_satellite`: the "Satellite
coming online" tail — re-run `lookup_endpoint`, probe the fresh endpoint
with the extended timeout, and return it or die. -/
def awaitOnline (w : World) (c : Counters) : Res PyVal × List Op × Counters :=
  let L := lookup_endpoint w c
  match L.1 with
  | .error e => (.exc e, L.2.1, L.2.2)
  | .ok endpoint =>
    let ok := w.probe L.2.2.probes endpoint launchProbeTimeout
    let c2 := { L.2.2 with probes := L.2.2.probes + 1 }
    if ok then (.ok (.str endpoint), L.2.1 ++ [Op.probe launchProbeTimeout], c2)
    else (.die dieOnlineTimeout, L.2.1 ++ [Op.probe launchProbeTimeout], c2)

/-- Embedding of `launch_satellite` (lines 125-204): destroy any existing
satellite, create a fresh application (dying on failure, with a distinct
message for HTTP 409), list push endpoints and push the payload (either
step's exception propagates), trigger a deployment (exception
propagates), stream the deployment logs — a nonzero exit code is
returned verbatim (line 175), `KeyboardInterrupt` dies after printing
guidance, the known `RuntimeError` is swallowed (lines 187-189) — and
finally wait for the satellite to come online. -/
def launch_satellite (w : World) (c : Counters) : Res PyVal × List Op × Counters :=
  let D := destroy_satellite w c
  let c0 := D.2
  let c1 := { c0 with creates := c0.creates + 1 }
  match w.createOutcome c0.creates with
  | some code =>
    if code = 409 then (.die dieAlreadyExists, D.1 ++ [Op.create], c1)
    else (.die dieCreateFailed, D.1 ++ [Op.create], c1)
  | Option.none =>
    let c2 := { c1 with pushLists := c1.pushLists + 1 }
    match w.pushEndpoints c1.pushLists with
    | .error e => (.exc e, D.1 ++ [Op.create, Op.pushList], c2)
    | .ok _ =>
      let c3 := { c2 with pushes := c2.pushes + 1 }
      match w.pushOutcome c2.pushes with
      | some e => (.exc e, D.1 ++ [Op.create, Op.pushList, Op.push], c3)
      | Option.none =>
        let c4 := { c3 with triggers := c3.triggers + 1 }
        match w.triggerOutcome c3.triggers with
        | .error e => (.exc e, D.1 ++ [Op.create, Op.pushList, Op.push, Op.trigger], c4)
        | .ok _ =>
          let c5 := { c4 with streams := c4.streams + 1 }
          match w.streamOutcome c4.streams with
          | .exit code =>
            if code ≠ 0 then
              (.ok (.int code),
               D.1 ++ [Op.create, Op.pushList, Op.push, Op.trigger, Op.streamLogs], c5)
            else
              let AO := awaitOnline w c5
              (AO.1,
               D.1 ++ [Op.create, Op.pushList, Op.push, Op.trigger, Op.streamLogs] ++ AO.2.1,
               AO.2.2)
          | .interrupt =>
            (.die dieInterrupt,
             D.1 ++ [Op.create, Op.pushList, Op.push, Op.trigger, Op.streamLogs], c5)
          | .runtimeError =>
            let AO := awaitOnline w c5
            (AO.1,
             D.1 ++ [Op.create, Op.pushList, Op.push, Op.trigger, Op.streamLogs] ++ AO.2.1,
             AO.2.2)
          | .exc e =>
            (.exc e,
             D.1 ++ [Op.create, Op.pushList, Op.push, Op.trigger, Op.streamLogs], c5)

/-- Which exceptions line 115's `except (RESTAPIError, KeyError)`
catches. -/
def caughtByDiscover : Exc → Bool
  | .rest _ => true
  | .keyError => true
  | _ => false

/-- Embedding of `discover_satellite` (lines 94-116).  If not configured,
die.  Otherwise look up the endpoint and probe it: on success return the
endpoint; on probe failure evaluate `launch_satellite(cli) if deploy
else None` — still inside the `try` block, so a `RESTAPIError` or
`KeyError` raised by that launch is caught by the handler at line 115,
which evaluates `launch_satellite(cli) if deploy else None` once more.
A caught exception from the lookup itself goes to the same handler. -/
def discover_satellite (w : World) (deploy : Bool) (timeout : Nat) (c : Counters) :
    Res PyVal × List Op × Counters :=
  if w.configured then
    let L := lookup_endpoint w c
    match L.1 with
    | .ok endpoint =>
      let ok := w.probe L.2.2.probes endpoint timeout
      let c2 := { L.2.2 with probes := L.2.2.probes + 1 }
      if ok then (.ok (.str endpoint), L.2.1 ++ [Op.probe timeout], c2)
      else if deploy then
        let A := launch_satellite w c2
        match A.1 with
        | .exc e =>
          if caughtByDiscover e then
            let B := launch_satellite w A.2.2
            (B.1, L.2.1 ++ [Op.probe timeout] ++ A.2.1 ++ B.2.1, B.2.2)
          else (.exc e, L.2.1 ++ [Op.probe timeout] ++ A.2.1, A.2.2)
        | r => (r, L.2.1 ++ [Op.probe timeout] ++ A.2.1, A.2.2)
      else (.ok PyVal.none, L.2.1 ++ [Op.probe timeout], c2)
    | .error e =>
      if caughtByDiscover e then
        if deploy then
          let A := launch_satellite w L.2.2
          (A.1, L.2.1 ++ A.2.1, A.2.2)
        else (.ok PyVal.none, L.2.1, L.2.2)
      else (.exc e, L.2.1, L.2.2)
  else (.die dieNotConfigured, [], c)

/-- Number of occurrences of an operation in a trace. -/
def countOp (x : Op) : List Op → Nat
  | [] => 0
  | o :: t => (if o = x then 1 else 0) + countOp x t

/-- Operations that do not mutate the remote platform: the environment
GET and the probe. -/
def readOnlyOp : Op → Bool
  | .lookup => true
  | .probe _ => true
  | _ => false

/-- Environment returned by the success-path worlds below. -/
def envOk : List (String × String) := [(envPortKey, "9000"), (envHostKey, "10.0.0.5")]

/-- A world where every remote operation succeeds: the environment names
host `10.0.0.5` and port `9000`, resolution is the identity, every probe
succeeds, and the redeploy steps all succeed with exit code 0. -/
def wOk : World :=
  { configured := true
  , lookups := fun _ => LookupOutcome.ok envOk
  , resolve := fun h => some h
  , probe := fun _ _ _ => true
  , destroyOutcome := fun _ => Option.none
  , createOutcome := fun _ => Option.none
  , pushEndpoints := fun _ => Except.ok "rsync-ep"
  , pushOutcome := fun _ => Option.none
  , triggerOutcome := fun _ => Except.ok ("trace-abc", "dep-1")
  , streamOutcome := fun _ => StreamOutcome.exit 0 }

/-- A world where the initial validation probe fails and the first
push-endpoint listing raises a `RESTAPIError`, while everything else
succeeds: exercises the double-redeploy path of `discover_satellite`. -/
def wTwoLaunches : World :=
  { wOk with
    probe := fun i _ _ => i != 0
  , pushEndpoints := fun i =>
      if i = 0 then Except.error (Exc.rest 500) else Except.ok "rsync-ep" }

/-- A world whose deployment log stream exits with code 3. -/
def wExitThree : World :=
  { wOk with streamOutcome := fun _ => StreamOutcome.exit 3 }

/-- A world whose environment GET always fails with HTTP 404. -/
def wLookupErr : World :=
  { wOk with lookups := fun _ => LookupOutcome.err 404 }

/-- A world whose log stream raises the `RuntimeError` the source works
around. -/
def wRuntimeErr : World :=
  { wOk with streamOutcome := fun _ => StreamOutcome.runtimeError }

/-- A world where every probe fails (the satellite never comes online). -/
def wNeverOnline : World :=
  { wOk with probe := fun _ _ _ => false }

/-- A world whose application-creating POST fails with HTTP 409. -/
def wConflict : World :=
  { wOk with createOutcome := fun _ => some 409 }

/-- `countOp` distributes over list append. -/
theorem countOp_append (x : Op) (a b : List Op) :
    countOp x (a ++ b) = countOp x a + countOp x b := by
  induction a with
  | nil => simp [countOp]
  | cons o t ih => simp [countOp, ih, Nat.add_assoc]

/-- The trace of one `launch_satellite` call is one of seven explicit
prefixes of the full redeploy sequence, depending on where it stops. -/
theorem launch_trace_cases (w : World) (c : Counters) :
    (launch_satellite w c).2.1 = [Op.destroy, Op.create] ∨
    (launch_satellite w c).2.1 = [Op.destroy, Op.create, Op.pushList] ∨
    (launch_satellite w c).2.1 = [Op.destroy, Op.create, Op.pushList, Op.push] ∨
    (launch_satellite w c).2.1 =
      [Op.destroy, Op.create, Op.pushList, Op.push, Op.trigger] ∨
    (launch_satellite w c).2.1 =
      [Op.destroy, Op.create, Op.pushList, Op.push, Op.trigger, Op.streamLogs] ∨
    (launch_satellite w c).2.1 =
      [Op.destroy, Op.create, Op.pushList, Op.push, Op.trigger, Op.streamLogs,
       Op.lookup] ∨
    (launch_satellite w c).2.1 =
      [Op.destroy, Op.create, Op.pushList, Op.push, Op.trigger, Op.streamLogs,
       Op.lookup, Op.probe launchProbeTimeout] := by
  simp only [launch_satellite, destroy_satellite, awaitOnline, lookup_endpoint]
  repeat' split
  all_goals simp_all

/-- Each `launch_satellite` call performs exactly one create. -/
theorem launch_count_create (w : World) (c : Counters) :
    countOp Op.create ((launch_satellite w c).2.1) = 1 := by
  rcases launch_trace_cases w c with h | h | h | h | h | h | h <;> rw [h] <;> decide

/-- Any probe performed inside `launch_satellite` uses the extended
post-deploy timeout. -/
theorem launch_probe_timeout (w : World) (c : Counters) (n : Nat)
    (h : Op.probe n ∈ (launch_satellite w c).2.1) : n = launchProbeTimeout := by
  rcases launch_trace_cases w c with h7 | h7 | h7 | h7 | h7 | h7 | h7 <;>
    rw [h7] at h <;> simp_all

/-- With `deploy = false`, `discover_satellite` performs at most a lookup
and a probe with its own timeout. -/
theorem discover_nodeploy_trace (w : World) (t : Nat) (c : Counters) :
    (discover_satellite w false t c).2.1 = [] ∨
    (discover_satellite w false t c).2.1 = [Op.lookup] ∨
    (discover_satellite w false t c).2.1 = [Op.lookup, Op.probe t] := by
  simp only [discover_satellite, lookup_endpoint]
  repeat' split
  all_goals simp_all

/-- Claim C1, as stated, is false: in the world `wTwoLaunches` —
configured, lookup succeeds, the validation probe fails, and the first
redeploy's push-endpoint listing raises a `RESTAPIError` — a single
`discover_satellite` call performs two destroys and two creates, because
the `launch_satellite` evaluated in the probe-failure branch sits inside
the `try` block, so its exception reaches the handler at line 115, which
starts a second redeploy. -/
theorem C1_counterexample :
    countOp Op.create ((discover_satellite wTwoLaunches true 5 Counters.init).2.1) = 2 ∧
    countOp Op.destroy ((discover_satellite wTwoLaunches true 5 Counters.init).2.1) = 2 := by
  decide

/-- Claim C1 (amended): one `discover_satellite` call starts at most two
redeploy attempts (measured by create operations): the attempt entered
when validation fails, plus at most one more started by the exception
handler when that attempt raises a `RESTAPIError` or `KeyError`. -/
theorem C1_thm (w : World) (deploy : Bool) (timeout : Nat) (c : Counters) :
    countOp Op.create ((discover_satellite w deploy timeout c).2.1) ≤ 2 := by
  simp only [discover_satellite, lookup_endpoint]
  repeat' split
  all_goals simp_all [countOp_append, countOp, launch_count_create]

/-- Claim C2, as stated, is false: in the world `wExitThree`, whose
deployment log stream exits with code 3 and whose deployment trigger
returned trace id `trace-abc`, `launch_satellite` returns the bare
integer exit code 3 (line 175 is `return res`), not a failure value
carrying the trace identifier.  The second half of the claim holds: the
trace stops at the log stream, so no post-deploy lookup or probe runs. -/
theorem C2_counterexample :
    (launch_satellite wExitThree Counters.init).1 = Res.ok (PyVal.int 3) ∧
    wExitThree.triggerOutcome 0 = Except.ok ("trace-abc", "dep-1") ∧
    (launch_satellite wExitThree Counters.init).2.1 =
      [Op.destroy, Op.create, Op.pushList, Op.push, Op.trigger, Op.streamLogs] :=
  ⟨by decide, rfl, by decide⟩

/-- Claim C2 (amended): if the deployment log stream returns a nonzero
exit code, `launch_satellite` returns that exit code verbatim (an
integer, carrying no trace identifier), and the post-deploy environment
lookup and probe are never invoked. -/
theorem C2_thm (w : World) (code : Int) (ep : String) (ids : String × String)
    (hcr : w.createOutcome 0 = Option.none)
    (hpl : w.pushEndpoints 0 = Except.ok ep)
    (hpu : w.pushOutcome 0 = Option.none)
    (htr : w.triggerOutcome 0 = Except.ok ids)
    (hst : w.streamOutcome 0 = StreamOutcome.exit code)
    (hnz : code ≠ 0) :
    (launch_satellite w Counters.init).1 = Res.ok (PyVal.int code) ∧
    (launch_satellite w Counters.init).2.1 =
      [Op.destroy, Op.create, Op.pushList, Op.push, Op.trigger, Op.streamLogs] := by
  simp [launch_satellite, destroy_satellite, Counters.init, hcr, hpl, hpu, htr, hst, hnz]

/-- Witness for C2's amended theorem at the concrete world `wExitThree`. -/
theorem C2_witness :
    (launch_satellite wExitThree Counters.init).1 = Res.ok (PyVal.int 3) ∧
    (launch_satellite wExitThree Counters.init).2.1 =
      [Op.destroy, Op.create, Op.pushList, Op.push, Op.trigger, Op.streamLogs] :=
  C2_thm wExitThree 3 "rsync-ep" ("trace-abc", "dep-1") rfl rfl rfl rfl rfl (by decide)

/-- Claim C4: every `launch_satellite` execution performs exactly one
destroy and exactly one create, and the destroy strictly precedes the
create — regardless of the prior remote state and of whether the destroy
call errored (its `RESTAPIError` is absorbed). -/
theorem C4_thm (w : World) (c : Counters) :
    ((launch_satellite w c).2.1).take 2 = [Op.destroy, Op.create] ∧
    countOp Op.destroy ((launch_satellite w c).2.1) = 1 ∧
    countOp Op.create ((launch_satellite w c).2.1) = 1 := by
  rcases launch_trace_cases w c with h | h | h | h | h | h | h <;> rw [h] <;>
    exact ⟨rfl, by decide, by decide⟩

/-- Claim C7: if the application-creating POST fails with HTTP 409,
`launch_satellite` dies immediately with the "already exists" message;
its trace stops at the create, so push, deployment trigger, log stream
and post-deploy probe are never invoked. -/
theorem C7_thm (w : World) (c : Counters)
    (h : w.createOutcome c.creates = some 409) :
    (launch_satellite w c).1 = Res.die dieAlreadyExists ∧
    (launch_satellite w c).2.1 = [Op.destroy, Op.create] := by
  simp [launch_satellite, destroy_satellite, h]

/-- Witness for C7 at the concrete world `wConflict`. -/
theorem C7_witness :
    (launch_satellite wConflict Counters.init).1 = Res.die dieAlreadyExists ∧
    (launch_satellite wConflict Counters.init).2.1 = [Op.destroy, Op.create] :=
  C7_thm wConflict Counters.init rfl

/-- Claim C3: when the environment lookup of `discover_satellite` raises
a remote API error or hits a missing key (both produce exceptions caught
by line 115's handler), the call behaves exactly as one redeploy started
from the handler — same result, and a trace that is the lookup followed
by the redeploy's operations — so the raw lookup error is consumed, not
propagated; with `deploy = false` the call instead returns `None`. -/
theorem C3_thm (w : World) (t : Nat) (e : Exc)
    (hconf : w.configured = true)
    (herr : lookupRes w 0 = Except.error e)
    (hcaught : caughtByDiscover e = true) :
    (discover_satellite w true t Counters.init).1 =
      (launch_satellite w { Counters.init with lookups := 1 }).1 ∧
    (discover_satellite w true t Counters.init).2.1 =
      Op.lookup :: (launch_satellite w { Counters.init with lookups := 1 }).2.1 ∧
    (discover_satellite w false t Counters.init).1 = Res.ok PyVal.none := by
  simp [discover_satellite, lookup_endpoint, Counters.init, hconf, herr, hcaught]

/-- Witness for C3 at the concrete world `wLookupErr`, whose lookup
fails with HTTP 404. -/
theorem C3_witness :
    (discover_satellite wLookupErr true 5 Counters.init).1 =
      (launch_satellite wLookupErr { Counters.init with lookups := 1 }).1 ∧
    (discover_satellite wLookupErr true 5 Counters.init).2.1 =
      Op.lookup :: (launch_satellite wLookupErr { Counters.init with lookups := 1 }).2.1 ∧
    (discover_satellite wLookupErr false 5 Counters.init).1 = Res.ok PyVal.none :=
  C3_thm wLookupErr 5 (Exc.rest 404) rfl rfl rfl

/-- Claim C5: if the lookup reports host `10.0.0.5` and port `9000`, the
host resolves to itself, and the probe of the constructed endpoint
succeeds within the short timeout, `discover_satellite` returns
`tcp://10.0.0.5:9000` and its trace is just the lookup and the probe —
no destroy, create, push or deploy operations. -/
theorem C5_thm (w : World) (deploy : Bool) (env : List (String × String))
    (hconf : w.configured = true)
    (hlk : w.lookups 0 = LookupOutcome.ok env)
    (hport : env.lookup envPortKey = some "9000")
    (hhost : env.lookup envHostKey = some "10.0.0.5")
    (hres : w.resolve "10.0.0.5" = some "10.0.0.5")
    (hprobe : w.probe 0 "tcp://10.0.0.5:9000" discoverDefaultTimeout = true) :
    (discover_satellite w deploy discoverDefaultTimeout Counters.init).1 =
      Res.ok (PyVal.str "tcp://10.0.0.5:9000") ∧
    (discover_satellite w deploy discoverDefaultTimeout Counters.init).2.1 =
      [Op.lookup, Op.probe discoverDefaultTimeout] := by
  have hstr : ("tcp://" ++ "10.0.0.5" ++ ":" ++ "9000" : String) = "tcp://10.0.0.5:9000" := rfl
  simp [discover_satellite, lookup_endpoint, lookupRes, Counters.init,
    hconf, hlk, hport, hhost, hres, hstr, hprobe]

/-- Witness for C5 at the concrete world `wOk`. -/
theorem C5_witness :
    (discover_satellite wOk true discoverDefaultTimeout Counters.init).1 =
      Res.ok (PyVal.str "tcp://10.0.0.5:9000") ∧
    (discover_satellite wOk true discoverDefaultTimeout Counters.init).2.1 =
      [Op.lookup, Op.probe discoverDefaultTimeout] :=
  C5_thm wOk true envOk rfl rfl (by decide) (by decide) rfl rfl

/-- Claim C6: when the redeploy reaches the post-deploy probe and that
probe fails (the extended timeout is exhausted — the probe enforces its
timeout internally), `launch_satellite` dies with the online-timeout
message, and its trace contains exactly one destroy and one create: it
never loops back into another destroy/create cycle. -/
theorem C6_thm (w : World) (s ep : String) (ids : String × String)
    (hcr : w.createOutcome 0 = Option.none)
    (hpl : w.pushEndpoints 0 = Except.ok ep)
    (hpu : w.pushOutcome 0 = Option.none)
    (htr : w.triggerOutcome 0 = Except.ok ids)
    (hst : w.streamOutcome 0 = StreamOutcome.exit 0)
    (hlk : lookupRes w 0 = Except.ok s)
    (hpr : w.probe 0 s launchProbeTimeout = false) :
    (launch_satellite w Counters.init).1 = Res.die dieOnlineTimeout ∧
    (launch_satellite w Counters.init).2.1 =
      [Op.destroy, Op.create, Op.pushList, Op.push, Op.trigger, Op.streamLogs,
       Op.lookup, Op.probe launchProbeTimeout] := by
  simp [launch_satellite, destroy_satellite, awaitOnline, lookup_endpoint,
    Counters.init, hcr, hpl, hpu, htr, hst, hlk, hpr]

/-- Witness for C6 at the concrete world `wNeverOnline`. -/
theorem C6_witness :
    (launch_satellite wNeverOnline Counters.init).1 = Res.die dieOnlineTimeout ∧
    (launch_satellite wNeverOnline Counters.init).2.1 =
      [Op.destroy, Op.create, Op.pushList, Op.push, Op.trigger, Op.streamLogs,
       Op.lookup, Op.probe launchProbeTimeout] :=
  C6_thm wNeverOnline "tcp://10.0.0.5:9000" "rsync-ep" ("trace-abc", "dep-1")
    rfl rfl rfl rfl rfl rfl rfl

/-- Claim C8: the probe timeout is an explicit argument of the probe.
Every probe inside `launch_satellite` uses `launchProbeTimeout`; the
validation probe of `discover_satellite` uses the `timeout` parameter it
was called with, whose declared default is `discoverDefaultTimeout`; the
two design values are 120 and 5 and differ. -/
theorem C8_thm (w : World) (c : Counters) (t n m : Nat)
    (hl : Op.probe n ∈ (launch_satellite w c).2.1)
    (hd : Op.probe m ∈ (discover_satellite w false t Counters.init).2.1) :
    n = launchProbeTimeout ∧ m = t ∧ discoverDefaultTimeout = 5 ∧
    launchProbeTimeout = 120 ∧ discoverDefaultTimeout ≠ launchProbeTimeout := by
  refine ⟨launch_probe_timeout w c n hl, ?_, rfl, rfl, by decide⟩
  rcases discover_nodeploy_trace w t Counters.init with h | h | h <;>
    rw [h] at hd <;> simp_all

/-- Witness for C8 at the concrete world `wOk`: the full redeploy probes
with timeout 120, the no-deploy discovery probes with timeout 5. -/
theorem C8_witness :
    (120 : Nat) = launchProbeTimeout ∧ (5 : Nat) = 5 ∧ discoverDefaultTimeout = 5 ∧
    launchProbeTimeout = 120 ∧ discoverDefaultTimeout ≠ launchProbeTimeout :=
  C8_thm wOk Counters.init 5 120 5 (by decide) (by decide)

/-- Claim C9: if the log-streaming call raises a `RuntimeError`, the
exception is swallowed (lines 187-189) and `launch_satellite` behaves —
in result, trace and oracle consumption — exactly as in the world where
that same log stream returned exit code zero. -/
theorem C9_thm (w : World) (c : Counters)
    (h : w.streamOutcome c.streams = StreamOutcome.runtimeError) :
    launch_satellite w c =
      launch_satellite
        { w with streamOutcome := fun i =>
            if i = c.streams then StreamOutcome.exit 0 else w.streamOutcome i } c := by
  simp [launch_satellite, destroy_satellite, awaitOnline, lookup_endpoint, lookupRes, h]

/-- Witness for C9 at the concrete world `wRuntimeErr`. -/
theorem C9_witness :
    launch_satellite wRuntimeErr Counters.init =
      launch_satellite
        { wRuntimeErr with streamOutcome := fun i =>
            if i = Counters.init.streams then StreamOutcome.exit 0
            else wRuntimeErr.streamOutcome i } Counters.init :=
  C9_thm wRuntimeErr Counters.init rfl

/-- Claim C10: with `deploy = false` every operation in the trace of
`discover_satellite` is read-only (no destroy, create, push or
deployment trigger), and — when configured — the call returns the
validated endpoint when lookup succeeds and its probe passes, and `None`
when the probe fails or the lookup fails with a caught error (remote API
error or missing key). -/
theorem C10_thm (w : World) (t : Nat) (hconf : w.configured = true) :
    (∀ o ∈ (discover_satellite w false t Counters.init).2.1, readOnlyOp o = true) ∧
    (∀ s, lookupRes w 0 = Except.ok s → w.probe 0 s t = true →
      (discover_satellite w false t Counters.init).1 = Res.ok (PyVal.str s)) ∧
    (∀ s, lookupRes w 0 = Except.ok s → w.probe 0 s t = false →
      (discover_satellite w false t Counters.init).1 = Res.ok PyVal.none) ∧
    (∀ e, lookupRes w 0 = Except.error e → caughtByDiscover e = true →
      (discover_satellite w false t Counters.init).1 = Res.ok PyVal.none) := by
  refine ⟨?_, ?_, ?_, ?_⟩
  · rcases discover_nodeploy_trace w t Counters.init with h | h | h <;> rw [h] <;>
      simp [readOnlyOp]
  · intro s hs hp
    simp [discover_satellite, lookup_endpoint, Counters.init, hconf, hs, hp]
  · intro s hs hp
    simp [discover_satellite, lookup_endpoint, Counters.init, hconf, hs, hp]
  · intro e he hc
    simp [discover_satellite, lookup_endpoint, Counters.init, hconf, he, hc]

/-- Witness for C10 at the concrete world `wOk`. -/
theorem C10_witness :
    (discover_satellite wOk false 5 Counters.init).1 =
      Res.ok (PyVal.str "tcp://10.0.0.5:9000") :=
  (C10_thm wOk 5 rfl).2.1 "tcp://10.0.0.5:9000" rfl rfl

end Skypipe
